import Mathlib

/-!
Shallow embedding of the WHOP client's session-orchestration core:
the domain model (`types/game.ts`), the derived-state calculator
(`utils/staffUtils.ts`), the patient-flow graph (`utils/flowGraph.ts`),
the action builders of the stepper forms, and the zustand session store
(`store/gameStore.ts`) with its asynchronous recommendation side-channel,
modelled as explicit state passing plus a small-step event semantics for
the interleaving of step submissions and recommendation-fetch resolutions.

JavaScript numbers are embedded as `Int` (all quantities involved are
integral counts or currency amounts); `Record` objects keyed by department
are embedded as functions out of `DepartmentId` or as association lists
when the source builds them key by key; optional fields become `Option`.
-/

namespace WHOP

/-- The four fixed department identifiers (`types/game.ts`, `DepartmentId`). -/
inductive DepartmentId
  | er
  | surgery
  | cc
  | sd
deriving DecidableEq, Repr

/-- The six round steps (`types/game.ts`, `StepType`). -/
inductive StepType
  | event
  | arrivals
  | exits
  | closed
  | staffing
  | paperwork
deriving DecidableEq, Repr

/-- `STEP_ORDER` from `types/game.ts`. -/
def STEP_ORDER : List StepType :=
  [.event, .arrivals, .exits, .closed, .staffing, .paperwork]

/-- `DECISION_STEPS` from `types/game.ts`. -/
def DECISION_STEPS : List StepType :=
  [.arrivals, .exits, .closed, .staffing]

/-- `ALL_DEPARTMENTS` from `types/game.ts`. -/
def ALL_DEPARTMENTS : List DepartmentId :=
  [.er, .surgery, .cc, .sd]

/-- `StaffState` from `types/game.ts`. -/
structure StaffState where
  core_total : Int
  core_busy : Int
  extra_total : Int
  extra_busy : Int
  extra_incoming : Int
  unavailable : Int
deriving DecidableEq, Repr

/-- `EventEffect` from `types/game.ts`. -/
structure EventEffect where
  staff_unavailable : Int
  staff_unavailable_permanent : Bool
  no_exits : Bool
  extra_staff_needed : Int
  bed_reduction : Int
  additional_arrivals : Int
  shift_change : Bool
  no_new_arrivals : Bool
deriving DecidableEq, Repr

/-- `ActiveEvent` from `types/game.ts`. -/
structure ActiveEvent where
  event_id : String
  description : String
  effect : EventEffect
  rounds_remaining : Option Int
deriving DecidableEq, Repr

/-- `TransferRequest` from `types/game.ts`. -/
structure TransferRequest where
  from_dept : DepartmentId
  to_dept : DepartmentId
  count : Int
  rounds_remaining : Int
deriving DecidableEq, Repr

/-- `DepartmentState` from `types/game.ts`; the `requests_waiting` record is
embedded as a function out of `DepartmentId`. -/
structure DepartmentState where
  id : DepartmentId
  staff : StaffState
  patients_in_beds : Int
  patients_in_hallway : Int
  bed_capacity : Option Int
  arrivals_waiting : Int
  requests_waiting : DepartmentId → Int
  outgoing_transfers : List TransferRequest
  is_closed : Bool
  is_diverting : Bool
  active_events : List ActiveEvent

/-- `RoundCostEntry` from `types/game.ts`; the `details` record becomes an
association list. -/
structure RoundCostEntry where
  round_number : Int
  financial : Int
  quality : Int
  details : List (String × Int)
deriving DecidableEq, Repr

/-- `GameState` from `types/game.ts`; the `departments` record is embedded as
a function out of `DepartmentId`. -/
structure GameState where
  game_id : String
  round_number : Int
  current_step : StepType
  departments : DepartmentId → DepartmentState
  total_financial_cost : Int
  total_quality_cost : Int
  round_costs : List RoundCostEntry
  is_finished : Bool
  er_diverted_last_round : Bool
  ambulances_diverted_this_round : Int

/-! ### Derived-state calculator (`utils/staffUtils.ts`) -/

/-- `coreIdle` from `utils/staffUtils.ts`. -/
def coreIdle (s : StaffState) : Int :=
  s.core_total - s.core_busy - s.unavailable

/-- `extraIdle` from `utils/staffUtils.ts`. -/
def extraIdle (s : StaffState) : Int :=
  s.extra_total - s.extra_busy

/-- `totalIdle` from `utils/staffUtils.ts`. -/
def totalIdle (s : StaffState) : Int :=
  coreIdle s + extraIdle s

/-- `totalBusy` from `utils/staffUtils.ts`. -/
def totalBusy (s : StaffState) : Int :=
  s.core_busy + s.extra_busy

/-- `totalOnDuty` from `utils/staffUtils.ts`. -/
def totalOnDuty (s : StaffState) : Int :=
  s.core_total + s.extra_total - s.unavailable

/-! ### Patient-flow reachability graph (`utils/flowGraph.ts`) -/

/-- `FLOW_GRAPH` from `utils/flowGraph.ts`: the fixed directed reachability
graph over the four departments. -/
def FLOW_GRAPH : DepartmentId → List DepartmentId
  | .er => [.surgery, .cc, .sd]
  | .surgery => [.cc, .sd]
  | .cc => [.surgery, .sd]
  | .sd => [.surgery, .cc]

/-- `canTransfer` from `utils/flowGraph.ts`. -/
def canTransfer (fromDept toDept : DepartmentId) : Bool :=
  (FLOW_GRAPH fromDept).contains toDept

/-! ### JSON values

The TypeScript source passes `unknown` / `Record<string, unknown>` payloads
around (the recommendation's `recommended_action`, an error response's
`detail`). They are embedded as a small JSON value type together with the
`JSON.stringify` rendering and JavaScript truthiness, both of which the
store's `extractError` depends on. -/

/-- A JSON value as it appears in `unknown`-typed payloads of the source. -/
inductive Jsonish
  | jnull
  | jbool (b : Bool)
  | jnum (n : Int)
  | jstr (s : String)
  | jarr (xs : List Jsonish)
  | jobj (fields : List (String × Jsonish))

mutual

/-- `JSON.stringify` on embedded JSON values (string escaping is not
modelled; none of the strings involved need it). -/
def jsonStringify : Jsonish → String
  | .jnull => "null"
  | .jbool true => "true"
  | .jbool false => "false"
  | .jnum n => toString n
  | .jstr s => "\"" ++ s ++ "\""
  | .jarr xs => "[" ++ jsonStringifyElems xs ++ "]"
  | .jobj fields => "\x7b" ++ jsonStringifyFields fields ++ "\x7d"

/-- Comma-separated rendering of a JSON array's elements. -/
def jsonStringifyElems : List Jsonish → String
  | [] => ""
  | [x] => jsonStringify x
  | x :: xs => jsonStringify x ++ "," ++ jsonStringifyElems xs

/-- Comma-separated rendering of a JSON object's fields. -/
def jsonStringifyFields : List (String × Jsonish) → String
  | [] => ""
  | [(k, v)] => "\"" ++ k ++ "\":" ++ jsonStringify v
  | (k, v) :: fs => "\"" ++ k ++ "\":" ++ jsonStringify v ++ "," ++ jsonStringifyFields fs

end

/-- `typeof detail === 'string'` on an embedded JSON value. -/
def Jsonish.isString : Jsonish → Bool
  | .jstr _ => true
  | _ => false

/-- The string carried by a JSON string value (irrelevant fallback elsewhere). -/
def Jsonish.asString : Jsonish → String
  | .jstr s => s
  | _ => ""

/-- JavaScript truthiness of a JSON value: `null`, `false`, `0` and the
empty string are falsy; every array and object is truthy. -/
def Jsonish.jsTruthy : Jsonish → Bool
  | .jnull => false
  | .jbool b => b
  | .jnum n => decide (n ≠ 0)
  | .jstr s => decide (s ≠ "")
  | .jarr _ => true
  | .jobj _ => true

/-! ### Actions (`types/game.ts`) -/

/-- `AdmitDecision` from `types/game.ts`. -/
structure AdmitDecision where
  department : DepartmentId
  admit_count : Int
deriving DecidableEq, Repr

/-- `AcceptTransferDecision` from `types/game.ts`. -/
structure AcceptTransferDecision where
  department : DepartmentId
  from_dept : DepartmentId
  accept_count : Int
deriving DecidableEq, Repr

/-- `ArrivalsAction` from `types/game.ts`; the optional `arrival_overrides`
record is embedded as an optional association list in the insertion order
the source builds it in. -/
structure ArrivalsAction where
  admissions : List AdmitDecision
  transfer_accepts : List AcceptTransferDecision
  arrival_overrides : Option (List (DepartmentId × Int))
deriving DecidableEq, Repr

/-- `ExitRouting` from `types/game.ts`; the `transfers` record becomes an
association list in insertion order. -/
structure ExitRouting where
  from_dept : DepartmentId
  walkout_count : Int
  transfers : List (DepartmentId × Int)
deriving DecidableEq, Repr

/-- `ExitsAction` from `types/game.ts`. -/
structure ExitsAction where
  routings : List ExitRouting
deriving DecidableEq, Repr

/-- `ClosedAction` from `types/game.ts`. -/
structure ClosedAction where
  close_departments : List DepartmentId
  open_departments : List DepartmentId
  divert_er : Bool
deriving DecidableEq, Repr

/-- `StaffTransfer` from `types/game.ts`. -/
structure StaffTransfer where
  from_dept : DepartmentId
  to_dept : DepartmentId
  count : Int
deriving DecidableEq, Repr

/-- `StaffingAction` from `types/game.ts`; the two sparse records become
association lists. -/
structure StaffingAction where
  extra_staff : List (DepartmentId × Int)
  return_extra : List (DepartmentId × Int)
  transfers : List StaffTransfer
deriving DecidableEq, Repr

/-! ### Recommendation payloads (`types/game.ts`) -/

/-- `ScoredCandidate` from `types/game.ts`. -/
structure ScoredCandidate where
  description : String
  action : Jsonish
  expected_financial : Int
  expected_quality : Int
  expected_total : Int
  delta_vs_baseline : Int
  p10_total : Int
  p90_total : Int
  reasoning : String

/-- The `source` tag of a recommendation (`'llm' | 'optimizer_fallback'`). -/
inductive RecSource
  | llm
  | optimizer_fallback
deriving DecidableEq, Repr

/-- The optional `cost_breakdown` object of `RecommendationResponse`. -/
structure CostBreakdown where
  action_cost : Int
  avoided_cost : Int
  net_impact : Int
deriving DecidableEq, Repr

/-- `RecommendationResponse` from `types/game.ts`. -/
structure RecommendationResponse where
  step : String
  recommended_action : Jsonish
  reasoning : String
  alternatives : List String
  cost_impact : Int
  risk_flags : List String
  confidence : Int
  source : RecSource
  llm_available : Bool
  optimizer_candidates : List ScoredCandidate
  baseline_cost : Int
  horizon_used : Int
  reasoning_steps : Option (List String)
  cost_breakdown : Option CostBreakdown
  key_tradeoffs : Option (List String)

/-- `NewGameResponse` from `types/game.ts`. -/
structure NewGameResponse where
  game_id : String
  state : GameState

/-! ### Error extraction and the session store (`store/gameStore.ts`)

The store's async operations are embedded as explicit state passing: each
operation takes the current store and the outcome that the awaited remote
call resolved with (an oracle for the network), and returns the new store
together with bookkeeping about what the operation did — whether the remote
API was reached at all (`calledApi`), and which recommendation fetch, if
any, was started by `afterStep` (`issuedFetch`). -/

/-- A failure value as seen by the store's catch blocks: an axios error
carrying the optional `err.response?.data?.detail` payload and the
transport `err.message`, or any other thrown value carrying its
`String(err)` rendering. -/
inductive ErrVal
  | axiosErr (detail : Option Jsonish) (message : String)
  | jsErr (rendered : String)

/-- `extractError` from `store/gameStore.ts`: the server-provided `detail`
when it is a string; `JSON.stringify(detail)` when `detail` is present and
truthy but not a string; otherwise the transport message. Non-axios
failures are rendered with `String(err)`. -/
def extractError : ErrVal → String
  | .axiosErr detail message =>
    match detail with
    | some d =>
      if d.isString then d.asString
      else if d.jsTruthy then jsonStringify d
      else message
    | none => message
  | .jsErr rendered => rendered

/-- The zustand store's state (`GameStore` data fields in
`store/gameStore.ts`). -/
structure Store where
  gameId : Option String
  state : Option GameState
  recommendation : Option RecommendationResponse
  loading : Bool
  error : Option String

/-- The store's initial state (`gameId: null, state: null,
recommendation: null, loading: false, error: null`). -/
def initialStore : Store :=
  { gameId := none, state := none, recommendation := none,
    loading := false, error := none }

/-- An in-flight recommendation fetch: the game id and the step it was
issued for (`api.getRecommendation(gameId, newState.current_step)`). -/
structure PendingFetch where
  gameId : String
  step : StepType
deriving DecidableEq, Repr

/-- Result of running one store operation: the new store, the
recommendation fetch started by `afterStep` (if any), and whether a
network request was issued. -/
structure StepResult where
  store : Store
  issuedFetch : Option PendingFetch
  calledApi : Bool

/-- The synchronous head of `afterStep`:
`set({ state: newState, recommendation: null, loading: false, error: null })`. -/
def afterStepStore (σ : Store) (newState : GameState) : Store :=
  { σ with state := some newState, recommendation := none,
           loading := false, error := none }

/-- Which recommendation fetch `afterStep` starts after its `set`: one for
`newState.current_step` when the new state is unfinished, its step is a
decision step, and a (truthy) `gameId` is present. -/
def afterStepFetch (σ : Store) (newState : GameState) : Option PendingFetch :=
  if newState.is_finished = false ∧ newState.current_step ∈ DECISION_STEPS then
    match (afterStepStore σ newState).gameId with
    | none => none
    | some g => if g = "" then none else some ⟨g, newState.current_step⟩
  else none

/-- `afterStep` up to (but not including) the resolution of the fetch it
starts: the new store and the pending fetch. -/
def afterStepSync (σ : Store) (newState : GameState) : Store × Option PendingFetch :=
  (afterStepStore σ newState, afterStepFetch σ newState)

/-- Resolution of an `afterStep` recommendation fetch that succeeded:
`set({ recommendation: rec })`, applied to whatever the store holds at
resolution time. -/
def afterStepFetchOk (σ : Store) (rec : RecommendationResponse) : Store :=
  { σ with recommendation := some rec }

/-- Resolution of an `afterStep` recommendation fetch that failed: the
empty catch block leaves the store untouched. -/
def afterStepFetchErr (σ : Store) : Store := σ

/-- The shared body of the six step operations: guard on a truthy `gameId`
(silent no-op otherwise), `set({ loading: true, error: null })`, submit,
then either `afterStep` on the returned state or the catch block
`set({ loading: false, error: extractError(err) })`. -/
def runStep (σ : Store) (outcome : Except ErrVal GameState) : StepResult :=
  match σ.gameId with
  | none => ⟨σ, none, false⟩
  | some g =>
    if g = "" then ⟨σ, none, false⟩
    else
      let σ1 : Store := { σ with loading := true, error := none }
      match outcome with
      | .ok newState => ⟨afterStepStore σ1 newState, afterStepFetch σ1 newState, true⟩
      | .error e => ⟨{ σ1 with loading := false, error := some (extractError e) }, none, true⟩

/-- `submitEvent` from `store/gameStore.ts` (the seed only feeds the API
call's query parameters). -/
def submitEventM (seed : Option Int) (σ : Store)
    (outcome : Except ErrVal GameState) : StepResult :=
  let _ := seed
  runStep σ outcome

/-- `submitArrivals` from `store/gameStore.ts` (the action is only the API
call's payload). -/
def submitArrivalsM (action : ArrivalsAction) (σ : Store)
    (outcome : Except ErrVal GameState) : StepResult :=
  let _ := action
  runStep σ outcome

/-- `submitExits` from `store/gameStore.ts`. -/
def submitExitsM (action : ExitsAction) (σ : Store)
    (outcome : Except ErrVal GameState) : StepResult :=
  let _ := action
  runStep σ outcome

/-- `submitClosed` from `store/gameStore.ts`. -/
def submitClosedM (action : ClosedAction) (σ : Store)
    (outcome : Except ErrVal GameState) : StepResult :=
  let _ := action
  runStep σ outcome

/-- `submitStaffing` from `store/gameStore.ts`. -/
def submitStaffingM (action : StaffingAction) (σ : Store)
    (outcome : Except ErrVal GameState) : StepResult :=
  let _ := action
  runStep σ outcome

/-- `submitPaperwork` from `store/gameStore.ts`. -/
def submitPaperworkM (σ : Store) (outcome : Except ErrVal GameState) : StepResult :=
  runStep σ outcome

/-- `newGame` from `store/gameStore.ts`. -/
def newGameM (σ : Store) (outcome : Except ErrVal NewGameResponse) : Store :=
  let σ1 : Store := { σ with loading := true, error := none }
  match outcome with
  | .ok r => { σ1 with gameId := some r.game_id, state := some r.state,
                       recommendation := none, loading := false }
  | .error e => { σ1 with loading := false, error := some (extractError e) }

/-- Result of the user-initiated `fetchRecommendation` operation. -/
structure RecFetchResult where
  store : Store
  calledApi : Bool

/-- `fetchRecommendation` from `store/gameStore.ts`: no-op without a truthy
`gameId` and a state, no-op outside decision steps; on success
`set({ recommendation: rec })`, on failure
`set({ error: extractError(err) })`. -/
def fetchRecommendationM (σ : Store)
    (outcome : Except ErrVal RecommendationResponse) : RecFetchResult :=
  match σ.gameId, σ.state with
  | some g, some st =>
    if g = "" then ⟨σ, false⟩
    else if st.current_step ∈ DECISION_STEPS then
      match outcome with
      | .ok rec => ⟨{ σ with recommendation := some rec }, true⟩
      | .error e => ⟨{ σ with error := some (extractError e) }, true⟩
    else ⟨σ, false⟩
  | _, _ => ⟨σ, false⟩

/-! ### Interleaving semantics

Suspension happens only at the network boundaries, so a run of the client
is a sequence of atomic transitions: a step submission resolving (running
the synchronous part of `afterStep`, which may leave a recommendation
fetch pending), and a pending recommendation fetch resolving later —
possibly after further step transitions. A configuration is the store
plus the multiset of pending recommendation fetches. -/

/-- A store configuration: the zustand store plus the in-flight
recommendation fetches. -/
structure Config where
  store : Store
  pending : List PendingFetch

/-- The atomic events of a client run, each corresponding to one resumption
of a suspended async operation in `store/gameStore.ts`. -/
inductive OEvent
  | newGameOk (resp : NewGameResponse)
  | newGameErr (e : ErrVal)
  | stepOk (newState : GameState)
  | stepErr (e : ErrVal)
  | fetchOk (f : PendingFetch) (rec : RecommendationResponse)
  | fetchErr (f : PendingFetch)

/-- One atomic transition. A resolving step submission runs the shared step
body; a resolving recommendation fetch applies `set({ recommendation: rec })`
(or nothing, on failure) to the store as it is at resolution time — the
source performs no step-match check at that point. -/
def applyEvent (c : Config) : OEvent → Config
  | .newGameOk resp => ⟨newGameM c.store (.ok resp), c.pending⟩
  | .newGameErr e => ⟨newGameM c.store (.error e), c.pending⟩
  | .stepOk newState =>
    let r := runStep c.store (.ok newState)
    ⟨r.store, c.pending ++ r.issuedFetch.toList⟩
  | .stepErr e =>
    let r := runStep c.store (.error e)
    ⟨r.store, c.pending ++ r.issuedFetch.toList⟩
  | .fetchOk f rec =>
    if f ∈ c.pending then ⟨afterStepFetchOk c.store rec, c.pending.erase f⟩ else c
  | .fetchErr f =>
    if f ∈ c.pending then ⟨afterStepFetchErr c.store, c.pending.erase f⟩ else c

/-- A whole run from a configuration through a list of events. -/
def applyEvents (c : Config) (es : List OEvent) : Config :=
  es.foldl applyEvent c

/-! ### Action builders (stepper forms) -/

/-- `ClosedForm.handleSubmit`: close exactly the departments toggled closed
whose current `is_closed` flag is false, open exactly the departments
toggled open whose current flag is true. -/
def buildClosedAction (closed : DepartmentId → Bool) (st : GameState)
    (divert : Bool) : ClosedAction :=
  { close_departments :=
      ALL_DEPARTMENTS.filter fun id => closed id && !(st.departments id).is_closed,
    open_departments :=
      ALL_DEPARTMENTS.filter fun id => !closed id && (st.departments id).is_closed,
    divert_er := divert }

/-- The override map built by `ArrivalsForm.handleSubmit`: an entry for a
department exactly when its edited card value differs from the card
default. -/
def overridePairs (arrivalOverrides cardDefaults : DepartmentId → Int) :
    List (DepartmentId × Int) :=
  ALL_DEPARTMENTS.filterMap fun id =>
    if arrivalOverrides id ≠ cardDefaults id then some (id, arrivalOverrides id)
    else none

/-- `ArrivalsForm.handleSubmit`: positive admissions, positive transfer
accepts (keyed by department and origin), and the `arrival_overrides`
field present exactly when the override map is nonempty. -/
def buildArrivalsAction (admissions : DepartmentId → Int)
    (accepts : List ((DepartmentId × DepartmentId) × Int))
    (arrivalOverrides cardDefaults : DepartmentId → Int) : ArrivalsAction :=
  let overrides := overridePairs arrivalOverrides cardDefaults
  { admissions :=
      (ALL_DEPARTMENTS.filter fun id => decide (admissions id > 0)).map
        fun id => ⟨id, admissions id⟩,
    transfer_accepts :=
      (accepts.filter fun e => decide (e.2 > 0)).map
        fun e => ⟨e.1.1, e.1.2, e.2⟩,
    arrival_overrides := if overrides.isEmpty then none else some overrides }

/-- `ExitsForm.handleSubmit`: per department, a transfer entry for each
destination in `FLOW_GRAPH` with a positive count, and a routing kept only
when its walkout count is positive or its transfer map is nonempty. -/
def buildExitRoutings (walkouts : DepartmentId → Int)
    (transfers : DepartmentId → DepartmentId → Int) : List ExitRouting :=
  (ALL_DEPARTMENTS.map fun id =>
    ({ from_dept := id,
       walkout_count := walkouts id,
       transfers := (FLOW_GRAPH id).filterMap fun dest =>
         if transfers id dest > 0 then some (dest, transfers id dest) else none } :
      ExitRouting)).filter
    fun r => decide (r.walkout_count > 0) || !r.transfers.isEmpty

/-! ### Concrete fixtures for witnesses and counterexamples -/

/-- A quiescent department, used to populate concrete game states. -/
def dept0 : DepartmentState :=
  { id := .er, staff := ⟨4, 0, 2, 0, 0, 0⟩, patients_in_beds := 0,
    patients_in_hallway := 0, bed_capacity := none, arrivals_waiting := 0,
    requests_waiting := fun _ => 0, outgoing_transfers := [],
    is_closed := false, is_diverting := false, active_events := [] }

/-- A concrete unfinished game state sitting at the given step. -/
def mkGS (step : StepType) : GameState :=
  { game_id := "g1", round_number := 1, current_step := step,
    departments := fun _ => dept0, total_financial_cost := 0,
    total_quality_cost := 0, round_costs := [], is_finished := false,
    er_diverted_last_round := false, ambulances_diverted_this_round := 0 }

/-- Game state at the `event` step. -/
def gsEvent : GameState := mkGS .event

/-- Game state at the `arrivals` step. -/
def gsArr : GameState := mkGS .arrivals

/-- Game state at the `exits` step. -/
def gsExits : GameState := mkGS .exits

/-- A concrete recommendation payload for the `arrivals` step. -/
def rec0 : RecommendationResponse :=
  { step := "arrivals", recommended_action := .jobj [], reasoning := "r",
    alternatives := [], cost_impact := 0, risk_flags := [], confidence := 1,
    source := .llm, llm_available := true, optimizer_candidates := [],
    baseline_cost := 0, horizon_used := 1, reasoning_steps := none,
    cost_breakdown := none, key_tradeoffs := none }

/-- A store with an active session sitting at the `arrivals` step. -/
def storeG : Store :=
  { gameId := some "g1", state := some gsArr, recommendation := none,
    loading := false, error := none }

/-- A configuration with an active session and no pending fetch. -/
def cfgG : Config := ⟨storeG, []⟩

/-- The recommendation fetch issued for the `arrivals` step of game `g1`. -/
def fetchArr : PendingFetch := ⟨"g1", .arrivals⟩

/-- The stale-resolution run: create a session, complete a step landing on
`arrivals` (starting fetch `fetchArr`), complete another step landing on
`exits` (starting a second fetch), then let the `arrivals` fetch resolve. -/
def c1Events : List OEvent :=
  [.newGameOk ⟨"g1", gsEvent⟩, .stepOk gsArr, .stepOk gsExits,
   .fetchOk fetchArr rec0]

/-- The configuration the stale-resolution run ends in. -/
def traceC1 : Config := applyEvents ⟨initialStore, []⟩ c1Events

/-- An empty arrivals action fixture. -/
def act0 : ArrivalsAction := ⟨[], [], none⟩

/-- An axios failure whose `detail` is a JSON array (truthy, not a string). -/
def ecArr : ErrVal := .axiosErr (some (.jarr [])) "Network Error"

/-- An axios failure carrying a string `detail`. -/
def ecDetail : ErrVal := .axiosErr (some (.jstr "bad step")) "Request failed"

/-- A non-axios failure rendered as `boom`. -/
def ecBoom : ErrVal := .jsErr "boom"

/-- The routing the exits builder produces for the ER when every transfer
count is one and no one walks out. -/
def routingEr : ExitRouting :=
  { from_dept := .er, walkout_count := 0,
    transfers := [(.surgery, 1), (.cc, 1), (.sd, 1)] }

/-! ## Theorems -/

/-- Every department belongs to the fixed department list. -/
lemma mem_ALL_DEPARTMENTS (d : DepartmentId) : d ∈ ALL_DEPARTMENTS := by
  cases d <;> simp [ALL_DEPARTMENTS]

/-- The flow graph has no self-edge and never offers the ER as a
destination. -/
lemma flowGraph_no_self_no_er (d : DepartmentId) :
    d ∉ FLOW_GRAPH d ∧ DepartmentId.er ∉ FLOW_GRAPH d := by
  cases d <;> simp [FLOW_GRAPH]

/-- C9: for every `StaffState`, the derived-state calculator satisfies the
five arithmetic identities exactly, with no rounding: idle core, idle
extra, total idle, total busy and total on duty. -/
theorem staff_derived_quantities (s : StaffState) :
    coreIdle s = s.core_total - s.core_busy - s.unavailable ∧
    extraIdle s = s.extra_total - s.extra_busy ∧
    totalIdle s = coreIdle s + extraIdle s ∧
    totalBusy s = s.core_busy + s.extra_busy ∧
    totalOnDuty s = s.core_total + s.extra_total - s.unavailable :=
  ⟨rfl, rfl, rfl, rfl, rfl⟩

/-- C7: the built `ClosedAction`'s close list holds exactly the departments
requested closed whose current `is_closed` flag is false, and its open list
exactly the departments requested open whose flag is true; in particular an
already-closed department requested closed again is excluded. -/
theorem closed_action_set_difference (closed : DepartmentId → Bool)
    (st : GameState) (divert : Bool) (d : DepartmentId) :
    (d ∈ (buildClosedAction closed st divert).close_departments ↔
      closed d = true ∧ (st.departments d).is_closed = false) ∧
    (d ∈ (buildClosedAction closed st divert).open_departments ↔
      closed d = false ∧ (st.departments d).is_closed = true) := by
  constructor <;>
    simp [buildClosedAction, List.mem_filter, mem_ALL_DEPARTMENTS d,
      Bool.and_eq_true, Bool.not_eq_true']

/-- C10: the flow graph contains no self-edges and never lists the ER, and
every routing built by the exits builder carries transfer entries only
toward destinations reachable from its origin — hence never back to the
origin and never into the ER. -/
theorem flow_graph_and_exit_routings :
    (∀ d : DepartmentId, d ∉ FLOW_GRAPH d ∧ DepartmentId.er ∉ FLOW_GRAPH d) ∧
    (∀ (w : DepartmentId → Int) (t : DepartmentId → DepartmentId → Int)
        (r : ExitRouting) (p : DepartmentId × Int),
        r ∈ buildExitRoutings w t → p ∈ r.transfers →
        p.1 ∈ FLOW_GRAPH r.from_dept ∧ p.1 ≠ r.from_dept ∧
          p.1 ≠ DepartmentId.er) := by
  refine ⟨flowGraph_no_self_no_er, ?_⟩
  intro w t r p hr hp
  have hr' := List.mem_of_mem_filter hr
  rw [List.mem_map] at hr'
  obtain ⟨id, hid, rfl⟩ := hr'
  dsimp only at hp ⊢
  rw [List.mem_filterMap] at hp
  obtain ⟨dest, hdest, hsome⟩ := hp
  by_cases hpos : t id dest > 0
  · rw [if_pos hpos] at hsome
    obtain rfl := Option.some.inj hsome
    refine ⟨hdest, ?_, ?_⟩
    · intro h
      exact (flowGraph_no_self_no_er id).1 (h ▸ hdest)
    · intro h
      exact (flowGraph_no_self_no_er id).2 (h ▸ hdest)
  · rw [if_neg hpos] at hsome
    exact absurd hsome (by simp)

/-- Witness for C10 at a concrete input: with every transfer count one and
no walkouts, the ER routing the builder produces carries a transfer to
surgery, which is reachable from the ER, differs from it, and is not the
ER. -/
theorem flow_graph_and_exit_routings_witness :
    (DepartmentId.surgery, (1 : Int)).1 ∈ FLOW_GRAPH routingEr.from_dept ∧
    (DepartmentId.surgery, (1 : Int)).1 ≠ routingEr.from_dept ∧
    (DepartmentId.surgery, (1 : Int)).1 ≠ DepartmentId.er :=
  flow_graph_and_exit_routings.2 (fun _ => 0) (fun _ _ => 1) routingEr
    (.surgery, 1) (by decide) (by decide)

/-- C8: an arrivals action built from edits all equal to the card defaults
has no `arrival_overrides` field at all, and in general the override map
holds an entry for a department exactly when its edited value differs from
the card default (the entry carrying the edited value). -/
theorem arrivals_overrides_minimal_diff (adm : DepartmentId → Int)
    (acc : List ((DepartmentId × DepartmentId) × Int))
    (edits defaults : DepartmentId → Int) :
    ((∀ d, edits d = defaults d) →
      (buildArrivalsAction adm acc edits defaults).arrival_overrides = none) ∧
    (∀ (d : DepartmentId) (v : Int),
      (d, v) ∈ overridePairs edits defaults ↔
        edits d ≠ defaults d ∧ v = edits d) := by
  constructor
  · intro h
    have hov : overridePairs edits defaults = [] := by
      simp [overridePairs, ALL_DEPARTMENTS, h DepartmentId.er,
        h DepartmentId.surgery, h DepartmentId.cc, h DepartmentId.sd]
    simp [buildArrivalsAction, hov]
  · intro d v
    constructor
    · intro hmem
      rw [overridePairs, List.mem_filterMap] at hmem
      obtain ⟨a, _, hfa⟩ := hmem
      by_cases hne : edits a ≠ defaults a
      · rw [if_pos hne] at hfa
        have hpair := Option.some.inj hfa
        have ha : a = d := congrArg Prod.fst hpair
        have hv : edits a = v := congrArg Prod.snd hpair
        subst ha
        exact ⟨hne, hv.symm⟩
      · rw [if_neg hne] at hfa
        exact absurd hfa (by simp)
    · rintro ⟨hne, rfl⟩
      rw [overridePairs, List.mem_filterMap]
      exact ⟨d, mem_ALL_DEPARTMENTS d, by rw [if_pos hne]⟩

/-- Witness for C8 at a concrete input: with every edit equal to its card
default, the built action omits the override map. -/
theorem arrivals_overrides_minimal_diff_witness :
    (buildArrivalsAction (fun _ => 0) [] (fun _ => 3) (fun _ => 3)).arrival_overrides
      = none :=
  (arrivals_overrides_minimal_diff (fun _ => 0) [] (fun _ => 3) (fun _ => 3)).1
    (fun _ => rfl)

/-- Without a session id the shared step body does nothing. -/
lemma runStep_gameId_none (σ : Store) (h : σ.gameId = none)
    (o : Except ErrVal GameState) : runStep σ o = ⟨σ, none, false⟩ := by
  simp [runStep, h]

/-- With a session id, a successful step runs the synchronous part of
`afterStep`. -/
lemma runStep_ok (σ : Store) (g : String) (ns : GameState)
    (hg : σ.gameId = some g) (hne : g ≠ "") :
    runStep σ (.ok ns) =
      ⟨afterStepStore { σ with loading := true, error := none } ns,
       afterStepFetch { σ with loading := true, error := none } ns, true⟩ := by
  simp [runStep, hg, hne]

/-- With a session id, a failed step runs the catch block. -/
lemma runStep_err (σ : Store) (g : String) (e : ErrVal)
    (hg : σ.gameId = some g) (hne : g ≠ "") :
    runStep σ (.error e) =
      ⟨{ σ with loading := false, error := some (extractError e) },
       none, true⟩ := by
  simp [runStep, hg, hne]

/-- The store fields after a successful step: state replaced wholesale,
recommendation, loading and error cleared. -/
lemma runStep_ok_post (σ : Store) (g : String) (ns : GameState)
    (hg : σ.gameId = some g) (hne : g ≠ "") :
    (runStep σ (.ok ns)).store.state = some ns ∧
    (runStep σ (.ok ns)).store.recommendation = none ∧
    (runStep σ (.ok ns)).store.loading = false ∧
    (runStep σ (.ok ns)).store.error = none := by
  rw [runStep_ok σ g ns hg hne]
  exact ⟨rfl, rfl, rfl, rfl⟩

/-- The store fields after a failed step: loading cleared, error populated
from `extractError`, previous state untouched. -/
lemma runStep_err_post (σ : Store) (g : String) (e : ErrVal)
    (hg : σ.gameId = some g) (hne : g ≠ "") :
    (runStep σ (.error e)).store.loading = false ∧
    (runStep σ (.error e)).store.error = some (extractError e) ∧
    (runStep σ (.error e)).store.state = σ.state := by
  rw [runStep_err σ g e hg hne]
  exact ⟨rfl, rfl, rfl⟩

/-- C5: every successful step submission stores the returned state
wholesale, clears the stored recommendation, and clears both the loading
flag and the error field — for each of the six step operations. -/
theorem step_success_replaces_state_wholesale (σ : Store) (g : String)
    (ns : GameState) (hg : σ.gameId = some g) (hne : g ≠ "") :
    (∀ seed, (submitEventM seed σ (.ok ns)).store.state = some ns ∧
      (submitEventM seed σ (.ok ns)).store.recommendation = none ∧
      (submitEventM seed σ (.ok ns)).store.loading = false ∧
      (submitEventM seed σ (.ok ns)).store.error = none) ∧
    (∀ a, (submitArrivalsM a σ (.ok ns)).store.state = some ns ∧
      (submitArrivalsM a σ (.ok ns)).store.recommendation = none ∧
      (submitArrivalsM a σ (.ok ns)).store.loading = false ∧
      (submitArrivalsM a σ (.ok ns)).store.error = none) ∧
    (∀ a, (submitExitsM a σ (.ok ns)).store.state = some ns ∧
      (submitExitsM a σ (.ok ns)).store.recommendation = none ∧
      (submitExitsM a σ (.ok ns)).store.loading = false ∧
      (submitExitsM a σ (.ok ns)).store.error = none) ∧
    (∀ a, (submitClosedM a σ (.ok ns)).store.state = some ns ∧
      (submitClosedM a σ (.ok ns)).store.recommendation = none ∧
      (submitClosedM a σ (.ok ns)).store.loading = false ∧
      (submitClosedM a σ (.ok ns)).store.error = none) ∧
    (∀ a, (submitStaffingM a σ (.ok ns)).store.state = some ns ∧
      (submitStaffingM a σ (.ok ns)).store.recommendation = none ∧
      (submitStaffingM a σ (.ok ns)).store.loading = false ∧
      (submitStaffingM a σ (.ok ns)).store.error = none) ∧
    ((submitPaperworkM σ (.ok ns)).store.state = some ns ∧
      (submitPaperworkM σ (.ok ns)).store.recommendation = none ∧
      (submitPaperworkM σ (.ok ns)).store.loading = false ∧
      (submitPaperworkM σ (.ok ns)).store.error = none) := by
  have h := runStep_ok_post σ g ns hg hne
  exact ⟨fun _ => h, fun _ => h, fun _ => h, fun _ => h, fun _ => h, h⟩

/-- Witness for C5 at a concrete input: a successful paperwork submission
on an active session stores the returned state and clears the other
fields. -/
theorem step_success_replaces_state_wholesale_witness :
    (submitPaperworkM storeG (.ok gsExits)).store.state = some gsExits ∧
    (submitPaperworkM storeG (.ok gsExits)).store.recommendation = none ∧
    (submitPaperworkM storeG (.ok gsExits)).store.loading = false ∧
    (submitPaperworkM storeG (.ok gsExits)).store.error = none :=
  (step_success_replaces_state_wholesale storeG "g1" gsExits rfl
    (by decide)).2.2.2.2.2

/-- C6: with no active session identifier, each of the six step operations
is a silent no-op — the store is returned unchanged in every field, no
recommendation fetch is started and no network request is issued. -/
theorem missing_session_silent_noop (σ : Store) (h : σ.gameId = none) :
    (∀ seed o, submitEventM seed σ o = ⟨σ, none, false⟩) ∧
    (∀ a o, submitArrivalsM a σ o = ⟨σ, none, false⟩) ∧
    (∀ a o, submitExitsM a σ o = ⟨σ, none, false⟩) ∧
    (∀ a o, submitClosedM a σ o = ⟨σ, none, false⟩) ∧
    (∀ a o, submitStaffingM a σ o = ⟨σ, none, false⟩) ∧
    (∀ o, submitPaperworkM σ o = ⟨σ, none, false⟩) := by
  have hr := runStep_gameId_none σ h
  exact ⟨fun _ o => hr o, fun _ o => hr o, fun _ o => hr o, fun _ o => hr o,
    fun _ o => hr o, fun o => hr o⟩

/-- Witness for C6 at a concrete input: on the initial store (no session),
a paperwork submission returns the store unchanged, with no fetch and no
API call. -/
theorem missing_session_silent_noop_witness :
    submitPaperworkM initialStore (.ok gsArr) = ⟨initialStore, none, false⟩ :=
  (missing_session_silent_noop initialStore rfl).2.2.2.2.2 (.ok gsArr)

/-- Counterexample to C3 as stated: on an active session, a failed arrivals
submission whose axios `detail` is a (non-string, truthy) JSON array sets
the error to `JSON.stringify(detail)` — here `[]` — which is neither a
server-provided detail string (none is present) nor the transport-error
message `Network Error`. -/
theorem nonstring_detail_not_transport_message :
    (submitArrivalsM act0 storeG (.error ecArr)).store.error = some "[]" ∧
    "[]" ≠ "Network Error" := by
  exact ⟨rfl, by decide⟩

/-- C3 (amended): on submission failure each of the six step operations
sets `loading` to false, sets `error` to `extractError` of the failure,
and leaves the previously stored state untouched; `extractError` yields
the server-provided detail when it is a string, the transport message when
no detail is present, the `JSON.stringify` rendering when the detail is
present and truthy but not a string, the transport message when the detail
is present but falsy, and the `String(err)` rendering for non-axios
failures. -/
theorem step_failure_error_handling :
    (∀ (seed : Option Int) (σ : Store) (g : String) (e : ErrVal),
      σ.gameId = some g → g ≠ "" →
      (submitEventM seed σ (.error e)).store.loading = false ∧
      (submitEventM seed σ (.error e)).store.error = some (extractError e) ∧
      (submitEventM seed σ (.error e)).store.state = σ.state) ∧
    (∀ (a : ArrivalsAction) (σ : Store) (g : String) (e : ErrVal),
      σ.gameId = some g → g ≠ "" →
      (submitArrivalsM a σ (.error e)).store.loading = false ∧
      (submitArrivalsM a σ (.error e)).store.error = some (extractError e) ∧
      (submitArrivalsM a σ (.error e)).store.state = σ.state) ∧
    (∀ (a : ExitsAction) (σ : Store) (g : String) (e : ErrVal),
      σ.gameId = some g → g ≠ "" →
      (submitExitsM a σ (.error e)).store.loading = false ∧
      (submitExitsM a σ (.error e)).store.error = some (extractError e) ∧
      (submitExitsM a σ (.error e)).store.state = σ.state) ∧
    (∀ (a : ClosedAction) (σ : Store) (g : String) (e : ErrVal),
      σ.gameId = some g → g ≠ "" →
      (submitClosedM a σ (.error e)).store.loading = false ∧
      (submitClosedM a σ (.error e)).store.error = some (extractError e) ∧
      (submitClosedM a σ (.error e)).store.state = σ.state) ∧
    (∀ (a : StaffingAction) (σ : Store) (g : String) (e : ErrVal),
      σ.gameId = some g → g ≠ "" →
      (submitStaffingM a σ (.error e)).store.loading = false ∧
      (submitStaffingM a σ (.error e)).store.error = some (extractError e) ∧
      (submitStaffingM a σ (.error e)).store.state = σ.state) ∧
    (∀ (σ : Store) (g : String) (e : ErrVal),
      σ.gameId = some g → g ≠ "" →
      (submitPaperworkM σ (.error e)).store.loading = false ∧
      (submitPaperworkM σ (.error e)).store.error = some (extractError e) ∧
      (submitPaperworkM σ (.error e)).store.state = σ.state) ∧
    (∀ (s msg : String),
      extractError (.axiosErr (some (.jstr s)) msg) = s) ∧
    (∀ msg : String, extractError (.axiosErr none msg) = msg) ∧
    (∀ (d : Jsonish) (msg : String), d.isString = false → d.jsTruthy = true →
      extractError (.axiosErr (some d) msg) = jsonStringify d) ∧
    (∀ (d : Jsonish) (msg : String), d.isString = false → d.jsTruthy = false →
      extractError (.axiosErr (some d) msg) = msg) ∧
    (∀ s : String, extractError (.jsErr s) = s) := by
  refine ⟨fun _ σ g e hg hne => runStep_err_post σ g e hg hne,
    fun _ σ g e hg hne => runStep_err_post σ g e hg hne,
    fun _ σ g e hg hne => runStep_err_post σ g e hg hne,
    fun _ σ g e hg hne => runStep_err_post σ g e hg hne,
    fun _ σ g e hg hne => runStep_err_post σ g e hg hne,
    fun σ g e hg hne => runStep_err_post σ g e hg hne,
    fun s msg => ?_, fun msg => rfl,
    fun d msg h1 h2 => ?_, fun d msg h1 h2 => ?_, fun s => rfl⟩
  · simp [extractError, Jsonish.isString, Jsonish.asString]
  · simp [extractError, h1, h2]
  · simp [extractError, h1, h2]

/-- Witness for C3 at a concrete input: a failed arrivals submission with a
string detail sets loading false, error to that detail, and preserves the
stored state. -/
theorem step_failure_error_handling_witness :
    (submitArrivalsM act0 storeG (.error ecDetail)).store.loading = false ∧
    (submitArrivalsM act0 storeG (.error ecDetail)).store.error =
      some (extractError ecDetail) ∧
    (submitArrivalsM act0 storeG (.error ecDetail)).store.state = storeG.state :=
  step_failure_error_handling.2.1 act0 storeG "g1" ecDetail rfl (by decide)

/-- Counterexample to C2 as stated: on an active session at a decision
step, a failed user-initiated `fetchRecommendation` does set the session
error (here to `boom`), starting from a store whose error field was
clear. -/
theorem user_fetch_failure_sets_session_error :
    (fetchRecommendationM storeG (.error ecBoom)).store.error = some "boom" ∧
    storeG.error = none :=
  ⟨rfl, rfl⟩

/-- C2 (amended): a failure of the automatic post-step recommendation
fetch leaves the whole store unchanged (no error, loading untouched);
`fetchRecommendation` never touches the loading flag, but when its guards
pass and the fetch fails it does set the session error to the extracted
message. -/
theorem recommendation_fetch_failure_semantics :
    (∀ (c : Config) (f : PendingFetch),
      (applyEvent c (.fetchErr f)).store = c.store) ∧
    (∀ (σ : Store) (o : Except ErrVal RecommendationResponse),
      (fetchRecommendationM σ o).store.loading = σ.loading) ∧
    (∀ (σ : Store) (g : String) (st : GameState) (e : ErrVal),
      σ.gameId = some g → g ≠ "" → σ.state = some st →
      st.current_step ∈ DECISION_STEPS →
      (fetchRecommendationM σ (.error e)).store.error =
        some (extractError e)) := by
  refine ⟨fun c f => ?_, fun σ o => ?_, fun σ g st e hg hne hs hd => ?_⟩
  · rw [applyEvent]
    split <;> rfl
  · rw [fetchRecommendationM.eq_def]
    rcases σ.gameId with _ | g <;> rcases σ.state with _ | st <;> try rfl
    dsimp only
    split
    · rfl
    · split
      · rcases o with e | rec <;> rfl
      · rfl
  · rw [fetchRecommendationM.eq_def, hg, hs]
    dsimp only
    rw [if_neg hne, if_pos hd]

/-- Witness for C2 at a concrete input: an automatic-fetch failure leaves a
configuration's store unchanged, and a failed `fetchRecommendation` on an
active session at the arrivals step sets the error to the extracted
message while its loading flag stays what it was. -/
theorem recommendation_fetch_failure_semantics_witness :
    (applyEvent cfgG (.fetchErr fetchArr)).store = cfgG.store ∧
    (fetchRecommendationM storeG (.error ecBoom)).store.loading = storeG.loading ∧
    (fetchRecommendationM storeG (.error ecBoom)).store.error =
      some (extractError ecBoom) :=
  ⟨recommendation_fetch_failure_semantics.1 cfgG fetchArr,
   recommendation_fetch_failure_semantics.2.1 storeG (.error ecBoom),
   recommendation_fetch_failure_semantics.2.2 storeG "g1" gsArr ecBoom rfl
     (by decide) rfl (by decide)⟩

/-- C4: when a step submission resolves successfully, the step operation's
store-visible completion — new state stored, loading cleared — happens
with the recommendation fetch it started still pending (it is appended to
the pending list, unresolved); and the later resolution of any
recommendation fetch can only touch the recommendation field, never the
loading flag, the stored state or the error of the completed step. -/
theorem step_completion_independent_of_fetch :
    (∀ (c : Config) (g : String) (ns : GameState),
      c.store.gameId = some g → g ≠ "" →
      (applyEvent c (.stepOk ns)).store.loading = false ∧
      (applyEvent c (.stepOk ns)).store.state = some ns ∧
      (ns.is_finished = false → ns.current_step ∈ DECISION_STEPS →
        (applyEvent c (.stepOk ns)).pending =
          c.pending ++ [⟨g, ns.current_step⟩])) ∧
    (∀ (c : Config) (f : PendingFetch) (rec : RecommendationResponse),
      (applyEvent c (.fetchOk f rec)).store.loading = c.store.loading ∧
      (applyEvent c (.fetchOk f rec)).store.state = c.store.state ∧
      (applyEvent c (.fetchOk f rec)).store.error = c.store.error ∧
      (applyEvent c (.fetchErr f)).store = c.store) := by
  constructor
  · intro c g ns hg hne
    rw [applyEvent]
    rw [runStep_ok c.store g ns hg hne]
    refine ⟨rfl, rfl, fun hfin hdec => ?_⟩
    dsimp only
    rw [afterStepFetch, if_pos ⟨hfin, hdec⟩, afterStepStore]
    dsimp only
    rw [hg]
    dsimp only
    rw [if_neg hne]
    rfl
  · intro c f rec
    refine ⟨?_, ?_, ?_, ?_⟩ <;> rw [applyEvent] <;> split <;> rfl

/-- Witness for C4 at a concrete input: submitting a step on an active
session that lands on the arrivals step completes with its recommendation
fetch still pending. -/
theorem step_completion_independent_of_fetch_witness :
    (applyEvent cfgG (.stepOk gsArr)).store.loading = false ∧
    (applyEvent cfgG (.stepOk gsArr)).store.state = some gsArr ∧
    (applyEvent cfgG (.stepOk gsArr)).pending =
      cfgG.pending ++ [⟨"g1", gsArr.current_step⟩] := by
  have h := step_completion_independent_of_fetch.1 cfgG "g1" gsArr rfl
    (by decide)
  exact ⟨h.1, h.2.1, h.2.2 rfl (by decide)⟩

/-- C1, refuted on the code: in the concrete run `c1Events` — create a
session, complete a step landing on `arrivals` (which starts a
recommendation fetch for `arrivals`), complete another step landing on
`exits`, then let the `arrivals` fetch resolve — the orchestrator attaches
the resolved recommendation even though the session's current step
(`exits`) no longer matches the step the fetch was issued for
(`arrivals`): `afterStep` performs no step-match check at resolution
time. -/
theorem stale_recommendation_attached :
    traceC1.store.recommendation = some rec0 ∧
    traceC1.store.state = some gsExits ∧
    fetchArr.step = StepType.arrivals ∧
    gsExits.current_step = StepType.exits ∧
    StepType.arrivals ≠ StepType.exits :=
  ⟨rfl, rfl, rfl, rfl, by decide⟩

end WHOP
